import Mathlib

/-!
Verification of the background-operation dispatch and progress-reporting
subsystem of the RustBurn GUI (rustburn-gui/src/main.rs).

The Rust application state (`RustBurnApp`), the progress-event enum
(`UiProgress` from rustburn_core, as consumed and matched exhaustively in
`update`), the status enum (`AppStatus`), and the action methods
(`start_burn`, `start_create_win_iso`, `scan_devices`, `is_idle`, and the
toolbar gating logic of `render_top_panel`) are shallowly embedded as pure
Lean functions over an explicit state record.  Opaque external calls
(`RustBurn::scan_devices`, file dialogs, the events a spawned
`RustBurn::burn_iso` writes to its channel) are passed in as explicit
parameters; machine `f32` fractions are modelled as rationals (the values
appearing in the claims, 0.5 and 1.0, are exactly representable); thread
handles and channel receivers are modelled by `Option Unit` (present or
absent), since only presence is ever inspected by the code.
-/

/-- A discovered USB device, as in `rustburn_core::UsbDevice` (fields as
used by `render_central_panel`: device path, vendor, model, size in bytes). -/
structure UsbDevice where
  device : String
  vendor : String
  model : String
  size : Nat
deriving DecidableEq, Repr

/-- Boot mode selector, as in `rustburn_core::BootType` (variants as used
by the options panel: UEFI, Legacy, Hybrid). -/
inductive BootType where
  | uefi
  | legacy
  | hybrid
deriving DecidableEq, Repr

/-- Burn-operation configuration, as in `rustburn_core::BurnOptions`
(fields as read and written by main.rs: `iso_path`, `device_path`,
`threads`, `make_bootable`, `boot_type`, `verify`, `block_size`).  A plain
value type; `.clone()` in Rust is value copying, which is the ordinary
semantics of a Lean value. -/
structure BurnOptions where
  iso_path : String
  device_path : String
  threads : Nat
  make_bootable : Bool
  boot_type : BootType
  verify : Bool
  block_size : Nat
deriving DecidableEq, Repr

/-- The progress events delivered on the mpsc channel, as in
`rustburn_core::UiProgress`; the eleven variants are exactly those matched
exhaustively in `RustBurnApp::update` (main.rs lines 102-121). -/
inductive UiProgress where
  | log (msg : String)
  | startingBurn
  | writing (p : ℚ)
  | startingVerification
  | verifying (p : ℚ)
  | startingBootableSetup
  | startingCreateWinIso
  | startingEject
  | startingErase
  | done
  | error (e : String)
deriving DecidableEq, Repr

/-- The application status enum `AppStatus` (main.rs lines 40-51). -/
inductive AppStatus where
  | idle
  | scanning
  | burning
  | creatingWinIso
  | verifying
  | settingUpBootable
  | ejecting
  | erasing
  | done
  | error (msg : String)
deriving DecidableEq, Repr

/-- The application state `RustBurnApp` (main.rs lines 54-70).  The
`icons` field (loaded textures, never read by the dispatch logic) is
omitted; `progress_receiver` and `operation_thread` keep only presence
(`Option Unit`), which is all the code ever inspects (`if let Some(rx)`,
assignment of `Some(...)` / `None`). -/
structure RustBurnApp where
  is_dark_mode : Bool
  devices : List UsbDevice
  burn_options : BurnOptions
  selected_device : Option String
  status : AppStatus
  burn_progress : ℚ
  progress_receiver : Option Unit
  operation_thread : Option Unit
  show_about_window : Bool
  is_file_hovering : Bool
  show_log_panel : Bool
  logs : List String
deriving DecidableEq, Repr

/-- The initial state built by `RustBurnApp::new` (main.rs lines 76-91),
with `BurnOptions::default()` taken as empty paths / zeroed numeric fields
(its exact defaults live in rustburn_core and are irrelevant to the
claims). -/
def RustBurnApp.new : RustBurnApp :=
  { is_dark_mode := true
    devices := []
    burn_options :=
      { iso_path := ""
        device_path := ""
        threads := 4
        make_bootable := false
        boot_type := .hybrid
        verify := false
        block_size := 4096 * 1024 }
    selected_device := none
    status := .idle
    burn_progress := 0
    progress_receiver := none
    operation_thread := none
    show_about_window := false
    is_file_hovering := false
    show_log_panel := false
    logs := [] }

/-- One iteration of the `match update { ... }` arm inside the
`while let Ok(update) = rx.try_recv()` drain loop of `RustBurnApp::update`
(main.rs lines 102-121): how a single received `UiProgress` event mutates
the state. -/
def handleEvent (s : RustBurnApp) : UiProgress → RustBurnApp
  | .log msg => { s with logs := s.logs ++ [msg] }
  | .startingBurn => { s with status := .burning }
  | .writing p => { s with burn_progress := p }
  | .startingVerification => { s with status := .verifying }
  | .verifying p => { s with burn_progress := p }
  | .startingBootableSetup => { s with status := .settingUpBootable }
  | .startingCreateWinIso => { s with status := .creatingWinIso }
  | .startingEject => { s with status := .ejecting }
  | .startingErase => { s with status := .erasing }
  | .done => { s with status := .done, operation_thread := none }
  | .error e =>
      { s with
        logs := s.logs ++ ["ERROR: " ++ e]
        status := .error e
        operation_thread := none }

/-- Draining the channel in `update`: the `while let Ok(..) = rx.try_recv()`
loop folds the queued events into the state one at a time, in arrival
order (main.rs lines 99-123).  `evs` is the list of events currently
queued on the channel. -/
def drainEvents (s : RustBurnApp) (evs : List UiProgress) : RustBurnApp :=
  evs.foldl handleEvent s

/-- Whether a `UiProgress` event is terminal: exactly `Done` and
`Error(_)` clear `operation_thread` in `update`. -/
def isTerminal : UiProgress → Bool
  | .done => true
  | .error _ => true
  | _ => false

/-- `RustBurnApp::start_burn` (main.rs lines 557-570).  When a device is
selected it writes the device path into `burn_options`, creates a fresh
channel (receiver retained), clones the options for the spawned thread,
stores the join handle, and sets status `Burning` with progress 0;
otherwise it does nothing. -/
def startBurn (s : RustBurnApp) : RustBurnApp :=
  match s.selected_device with
  | some device =>
      { s with
        burn_options := { s.burn_options with device_path := device }
        progress_receiver := some ()
        operation_thread := some ()
        status := .burning
        burn_progress := 0 }
  | none => s

/-- The `BurnOptions` value captured by `burn_options_clone` and moved
into the spawned thread in `start_burn` (main.rs line 562): the
controller's options after `device_path` has been set, cloned at the
moment the start succeeds; `none` when no device is selected and nothing
is spawned. -/
def startBurnSpawnedConfig (s : RustBurnApp) : Option BurnOptions :=
  match s.selected_device with
  | some device => some { s.burn_options with device_path := device }
  | none => none

/-- `RustBurnApp::start_create_win_iso` (main.rs lines 333-352).  The two
file-dialog results are opaque external inputs, passed as parameters: the
operation is started only when both dialogs returned a path. -/
def startCreateWinIso (sourceFolder saveFile : Option String)
    (s : RustBurnApp) : RustBurnApp :=
  match sourceFolder, saveFile with
  | some _, some _ =>
      { s with
        progress_receiver := some ()
        operation_thread := some ()
        status := .creatingWinIso }
  | _, _ => s

/-- `RustBurnApp::scan_devices` (main.rs lines 534-544).  The synchronous
external call `RustBurn::scan_devices()` is opaque; its result is passed
as a parameter.  The method first sets status `Scanning`; on `Ok` it
stores the device list, on `Err` the `unwrap_or_else` closure sets status
`Error(e)` and yields an empty list; finally, status is reset to `Idle`
only if it still equals `Scanning`. -/
def scanDevices (scanResult : Except String (List UsbDevice))
    (s : RustBurnApp) : RustBurnApp :=
  let s1 := { s with status := AppStatus.scanning }
  let s2 :=
    match scanResult with
    | .ok devs => { s1 with devices := devs }
    | .error e => { s1 with status := AppStatus.error e, devices := [] }
  if s2.status = AppStatus.scanning then { s2 with status := AppStatus.idle }
  else s2

/-- `RustBurnApp::is_idle` (main.rs lines 572-577): the at-rest check used
by `update` (repaint) and `render_bottom_panel` (spinner); true on `Idle`,
`Done`, and `Error(_)`. -/
def RustBurnApp.is_idle (s : RustBurnApp) : Bool :=
  match s.status with
  | .idle => true
  | .done => true
  | .error _ => true
  | _ => false

/-- Whether the status matches `AppStatus::Error(_)`, as in the
`matches!` half of the toolbar condition (main.rs line 182). -/
def statusIsError : AppStatus → Bool
  | .error _ => true
  | _ => false

/-- The local `is_idle` enablement condition computed at the top of the
toolbar in `render_top_panel` (main.rs lines 181-182):
`self.status == AppStatus::Idle || matches!(self.status, AppStatus::Error(_))`.
Note this is NOT the `is_idle()` method: it omits `Done`. -/
def toolbarIsIdle (s : RustBurnApp) : Bool :=
  decide (s.status = AppStatus.idle) || statusIsError s.status

/-- The `can_burn` condition of `render_top_panel` (main.rs lines
208-209): a device is selected and the ISO path is nonempty. -/
def canBurn (s : RustBurnApp) : Bool :=
  s.selected_device.isSome && !s.burn_options.iso_path.isEmpty

/-- Whether a click on the toolbar burn button reaches `start_burn`: the
button is enabled exactly when `can_burn && is_idle` (main.rs lines
210-219). -/
def burnButtonEnabled (s : RustBurnApp) : Bool :=
  canBurn s && toolbarIsIdle s

/-- A user's start-burn request through the toolbar: if the burn button is
enabled the click invokes `start_burn`, otherwise the disabled button
swallows the click and the state is untouched. -/
def requestBurn (s : RustBurnApp) : RustBurnApp :=
  if burnButtonEnabled s then startBurn s else s

/-- A dispatcher-level view pairing the controller state with the
configuration value owned by the currently spawned operation (the value
moved into the `thread::spawn` closure in `start_burn`); used to state
that the two never alias. -/
structure BurnSystem where
  app : RustBurnApp
  spawned_config : Option BurnOptions
deriving DecidableEq, Repr

/-- `start_burn` at the system level: the app state is updated as in
`startBurn`, and on success the spawned thread receives the cloned
options. -/
def startBurnSys (sys : BurnSystem) : BurnSystem :=
  { app := startBurn sys.app
    spawned_config :=
      match startBurnSpawnedConfig sys.app with
      | some c => some c
      | none => sys.spawned_config }

/-- A controller-side mutation of its own `BurnOptions` (slider, checkbox,
combo box edits in `render_top_panel`): it rewrites `app.burn_options`
only; the spawned thread's value is a separate copy by construction of
the clone. -/
def mutateOptionsSys (f : BurnOptions → BurnOptions) (sys : BurnSystem) :
    BurnSystem :=
  { sys with app := { sys.app with burn_options := f sys.app.burn_options } }

/-! ## Shared concrete states and helper lemmas -/

/-- A state that has just finished an operation successfully: status
`Done`, a device still selected, an ISO path still set, the terminal event
already drained (`operation_thread = none`). -/
def doneReadyState : RustBurnApp :=
  { RustBurnApp.new with
      status := AppStatus.done
      selected_device := some "/dev/sdb"
      burn_options := { RustBurnApp.new.burn_options with iso_path := "ubuntu.iso" } }

/-- An at-rest state with a device selected and an ISO chosen, from which
`start_burn` succeeds. -/
def selReadyState : RustBurnApp :=
  { RustBurnApp.new with
      selected_device := some "/dev/sdb"
      burn_options := { RustBurnApp.new.burn_options with iso_path := "ubuntu.iso" } }

/-- How one event changes the thread handle: exactly the terminal events
(`Done`, `Error`) clear it, every other event leaves it untouched. -/
theorem handleEvent_thread (s : RustBurnApp) (e : UiProgress) :
    (handleEvent s e).operation_thread =
      if isTerminal e then none else s.operation_thread := by
  cases e <;> rfl

/-- Draining a queue clears the thread handle exactly when it was already
clear or some drained event was terminal. -/
theorem drainEvents_thread_none_iff (evs : List UiProgress) (s : RustBurnApp) :
    (drainEvents s evs).operation_thread = none ↔
      s.operation_thread = none ∨ ∃ e ∈ evs, isTerminal e = true := by
  induction evs generalizing s with
  | nil => simp [drainEvents]
  | cons e es ih =>
    simp only [drainEvents, List.foldl_cons] at ih ⊢
    rw [ih, handleEvent_thread]
    cases he : isTerminal e with
    | true =>
        simp only [if_pos rfl, List.mem_cons]
        constructor
        · intro _; exact Or.inr ⟨e, Or.inl rfl, he⟩
        · intro _; exact Or.inl rfl
    | false =>
        simp only [Bool.false_eq_true, if_neg, List.mem_cons]
        constructor
        · rintro (h | ⟨x, hx, hxt⟩)
          · exact Or.inl h
          · exact Or.inr ⟨x, Or.inr hx, hxt⟩
        · rintro (h | ⟨x, hx | hx, hxt⟩)
          · exact Or.inl h
          · exact absurd hxt (by rw [hx, he]; simp)
          · exact Or.inr ⟨x, hx, hxt⟩

/-! ## Claim theorems -/

/-- C1, counterexample.  The claim says a start-burn request is rejected
if and only if the previous invocation's terminal event has not yet been
drained.  In `doneReadyState` the terminal event HAS been drained
(`operation_thread = none`), a device is selected and an ISO is chosen,
yet the toolbar gate (`can_burn && is_idle`, with the toolbar-local
`is_idle` of main.rs lines 181-182 omitting `Done`) rejects the request:
the button is disabled and the click leaves the state untouched. -/
theorem C1_counterexample :
    doneReadyState.operation_thread = none ∧
    burnButtonEnabled doneReadyState = false ∧
    requestBurn doneReadyState = doneReadyState := by
  decide

/-- C1, amended.  A start-burn request through the toolbar is accepted
exactly when a device is selected, the ISO path is nonempty, and the
status is `Idle` or `Error(_)`; this gate is not equivalent to "the
previous terminal event has been drained" (it also rejects in `Done`). -/
theorem C1_start_gate_characterization (s : RustBurnApp) :
    burnButtonEnabled s = true ↔
      s.selected_device.isSome = true ∧ s.burn_options.iso_path ≠ "" ∧
        (s.status = AppStatus.idle ∨ statusIsError s.status = true) := by
  unfold burnButtonEnabled canBurn toolbarIsIdle
  constructor
  · intro h
    simp only [Bool.and_eq_true, Bool.or_eq_true, Bool.not_eq_true',
      decide_eq_true_eq] at h
    refine ⟨h.1.1, ?_, h.2⟩
    intro hemp
    rw [hemp] at h
    exact absurd h.1.2 (by decide)
  · rintro ⟨hsel, hiso, hst⟩
    simp only [Bool.and_eq_true, Bool.or_eq_true, Bool.not_eq_true',
      decide_eq_true_eq]
    refine ⟨⟨hsel, ?_⟩, hst⟩
    cases hi : s.burn_options.iso_path.isEmpty
    · rfl
    · exact absurd ((String.isEmpty_iff _).mp hi) hiso

/-- C2.  After a successful `start_burn` the thread handle is present; no
non-terminal event clears it; and after draining any event list the
handle is cleared exactly when some drained event was terminal
(`Done` or `Error`). -/
theorem C2_active_flag_iff_terminal_drained (s : RustBurnApp) (d : String)
    (h : s.selected_device = some d) :
    (startBurn s).operation_thread = some () ∧
    (∀ (t : RustBurnApp) (e : UiProgress), isTerminal e = false →
      (handleEvent t e).operation_thread = t.operation_thread) ∧
    ∀ evs : List UiProgress,
      ((drainEvents (startBurn s) evs).operation_thread = none ↔
        ∃ e ∈ evs, isTerminal e = true) := by
  have hstart : (startBurn s).operation_thread = some () := by
    unfold startBurn; rw [h]
  refine ⟨hstart, ?_, ?_⟩
  · intro t e he
    rw [handleEvent_thread, he]
    rfl
  · intro evs
    rw [drainEvents_thread_none_iff, hstart]
    simp

theorem C2_witness :
    selReadyState.selected_device = some "/dev/sdb" ∧
    (startBurn selReadyState).operation_thread = some () :=
  ⟨rfl, (C2_active_flag_iff_terminal_drained selReadyState "/dev/sdb" rfl).1⟩

/-- C3.  The claim (and the spec) treat `Idle`, `Done`, `Error(_)` as the
at-rest states gating new operations, and the `is_idle()` method of
main.rs lines 572-577 agrees; but the enablement condition actually used
for the toolbar buttons (the local `is_idle` of lines 181-182) omits
`Done`: on status `Done` the method returns true while every gated
toolbar action, including scan and burn, is disabled. -/
theorem C3_toolbar_gate_excludes_done :
    doneReadyState.status = AppStatus.done ∧
    RustBurnApp.is_idle doneReadyState = true ∧
    toolbarIsIdle doneReadyState = false ∧
    burnButtonEnabled doneReadyState = false := by
  decide

/-- C4, counterexample.  The claim says the status returns from
`Scanning` to `Idle` when the scan call returns regardless of outcome; in
fact, when `RustBurn::scan_devices()` fails, the `unwrap_or_else` closure
sets status `Error(e)` and the trailing `if status == Scanning` reset
does not fire, so `scan_devices` returns with a sticky `Error` status. -/
theorem C4_counterexample :
    (scanDevices (Except.error "io error") RustBurnApp.new).status =
      AppStatus.error "io error" ∧
    (scanDevices (Except.error "io error") RustBurnApp.new).status ≠
      AppStatus.idle := by
  decide

/-- C4, amended.  When `scan_devices` returns: on a successful scan the
status is reset to `Idle`; on a failed scan the status is `Error(message)`
and stays so after the call returns (an at-rest status from which new
operations remain permitted, but sticky rather than a transient flash). -/
theorem C4_scan_status_by_outcome (s : RustBurnApp)
    (devs : List UsbDevice) (e : String) :
    (scanDevices (Except.ok devs) s).status = AppStatus.idle ∧
    (scanDevices (Except.error e) s).status = AppStatus.error e := by
  constructor
  · simp [scanDevices]
  · simp [scanDevices]

/-- C5.  The claim says a panic in the spawned execution context is
caught at the thread boundary and converted into an `Error` terminal
event so the thread handle is eventually cleared.  The spawn closure of
`start_burn` (main.rs lines 564-566) wraps `RustBurn::burn_iso` in no
catch-unwind handler: if `burn_iso` dies after emitting only the
non-terminal events `[StartingBurn, Writing 0.3]`, those are all the
channel ever carries, and after draining them the state keeps
`operation_thread = Some(..)` and status `Burning` forever — no code path
clears them without a terminal event. -/
theorem C5_uncaught_thread_death_leaves_flag_stuck :
    (drainEvents (startBurn selReadyState)
        [UiProgress.startingBurn, UiProgress.writing (3/10)]).operation_thread
      = some () ∧
    (drainEvents (startBurn selReadyState)
        [UiProgress.startingBurn, UiProgress.writing (3/10)]).status
      = AppStatus.burning := by
  decide

/-- C6.  Starting a burn from any state with a selected device and then
draining the event sequence
`[StartingBurn, Writing 0.5, Writing 1.0, Done]` ends with status `Done`,
progress 1.0, and the thread handle cleared. -/
theorem C6_successful_burn_scenario (s : RustBurnApp) (d : String)
    (h : s.selected_device = some d) :
    (drainEvents (startBurn s)
        [UiProgress.startingBurn, UiProgress.writing (1/2),
          UiProgress.writing 1, UiProgress.done]).status = AppStatus.done ∧
    (drainEvents (startBurn s)
        [UiProgress.startingBurn, UiProgress.writing (1/2),
          UiProgress.writing 1, UiProgress.done]).burn_progress = 1 ∧
    (drainEvents (startBurn s)
        [UiProgress.startingBurn, UiProgress.writing (1/2),
          UiProgress.writing 1, UiProgress.done]).operation_thread = none := by
  unfold startBurn
  rw [h]
  exact ⟨rfl, rfl, rfl⟩

theorem C6_witness :
    selReadyState.selected_device = some "/dev/sdb" ∧
    (drainEvents (startBurn selReadyState)
        [UiProgress.startingBurn, UiProgress.writing (1/2),
          UiProgress.writing 1, UiProgress.done]).status = AppStatus.done :=
  ⟨rfl, (C6_successful_burn_scenario selReadyState "/dev/sdb" rfl).1⟩

/-- C7.  Whenever `Error(m)` is the last event of an invocation's drained
stream, the final status is `Error(m)` with exactly that message,
whatever state the drain started from and whatever events preceded it. -/
theorem C7_error_event_is_final_status (s : RustBurnApp) (m : String)
    (evs : List UiProgress) :
    (drainEvents s (evs ++ [UiProgress.error m])).status = AppStatus.error m := by
  unfold drainEvents
  rw [List.foldl_append]
  rfl

/-- C8.  A `Writing(p)` or `Verifying(p)` event rewrites only the numeric
`burn_progress` field: the resulting state is the old one with
`burn_progress := p`, so status, logs, devices and every other field are
untouched. -/
theorem C8_progress_events_change_only_progress (s : RustBurnApp) (p : ℚ) :
    handleEvent s (UiProgress.writing p) = { s with burn_progress := p } ∧
    handleEvent s (UiProgress.verifying p) = { s with burn_progress := p } :=
  ⟨rfl, rfl⟩

/-- C9.  `start_burn` hands the spawned thread a clone of the options
taken at start time (after `device_path` is filled in); the controller
retains an equal copy of its own, and any later controller-side mutation
of `burn_options` changes only the controller's copy, never the value the
running operation received. -/
theorem C9_config_cloned_at_start (sys : BurnSystem) (d : String)
    (f : BurnOptions → BurnOptions) (h : sys.app.selected_device = some d) :
    (startBurnSys sys).spawned_config =
      some { sys.app.burn_options with device_path := d } ∧
    (startBurnSys sys).app.burn_options =
      { sys.app.burn_options with device_path := d } ∧
    (mutateOptionsSys f (startBurnSys sys)).spawned_config =
      (startBurnSys sys).spawned_config ∧
    (mutateOptionsSys f (startBurnSys sys)).app.burn_options =
      f ((startBurnSys sys).app.burn_options) := by
  refine ⟨?_, ?_, rfl, rfl⟩ <;>
    · unfold startBurnSys startBurnSpawnedConfig startBurn
      rw [h]

theorem C9_witness :
    (BurnSystem.mk selReadyState none).app.selected_device = some "/dev/sdb" ∧
    (startBurnSys (BurnSystem.mk selReadyState none)).spawned_config =
      some { selReadyState.burn_options with device_path := "/dev/sdb" } :=
  ⟨rfl,
    (C9_config_cloned_at_start (BurnSystem.mk selReadyState none) "/dev/sdb"
      (fun o => { o with threads := 9 }) rfl).1⟩

/-- C10.  With no device selected, `start_burn` is a complete no-op: the
`if let Some(device)` guard fails and the state — every field, including
receiver and thread handle — is returned unchanged, with no error
signalled. -/
theorem C10_start_burn_no_device_noop (s : RustBurnApp)
    (h : s.selected_device = none) :
    startBurn s = s := by
  unfold startBurn
  rw [h]

theorem C10_witness :
    RustBurnApp.new.selected_device = none ∧
    startBurn RustBurnApp.new = RustBurnApp.new :=
  ⟨rfl, C10_start_burn_no_device_noop RustBurnApp.new rfl⟩
